import Mathlib

/-!
Verification of the SGX caching service core (`resource/platform_ops.go`,
`resource/validation.go`) against its natural-language specification.
Go byte slices are embedded as `List Nat` (each element < 256 where it
matters), Go `uint16`/`uint32` as `Nat` with explicit `% 2^w` at overflow
points, fallible Go functions as `Except`/`Option`, and a Go runtime panic
as `Option.none`.  Database handles and the out-of-tree v3 lazy-cache
helpers are passed as explicit parameters.
-/

namespace SCS

/-! ## Constants (constants/constants.go) -/

def MaxTcbLevels : Nat := 16

def EncPPID_Key : String := "encrypted_ppid"
def CpuSvn_Key : String := "cpu_svn"
def PceSvn_Key : String := "pce_svn"
def PceId_Key : String := "pce_id"
def QeId_Key : String := "qe_id"
def Ca_Key : String := "ca"
def Type_Key : String := "type"
def Fmspc_Key : String := "fmspc"

/-! ## Three-way comparison constants (platform_ops.go, `const ( Error = iota ... )`) -/

def Error : Nat := 0
def EqualOrGreater : Nat := 1
def Lower : Nat := 2
def Undefined : Nat := 3

/-! ## Hex decoding (encoding/hex and strconv.ParseUint as used by getBestPckCert) -/

def hexDigitVal (c : Char) : Option Nat :=
  if '0' ≤ c ∧ c ≤ '9' then some (c.toNat - '0'.toNat)
  else if 'a' ≤ c ∧ c ≤ 'f' then some (c.toNat - 'a'.toNat + 10)
  else if 'A' ≤ c ∧ c ≤ 'F' then some (c.toNat - 'A'.toNat + 10)
  else none

/-- `hex.DecodeString`: pairs of hex digits to bytes; odd length or a
non-hex character is an error. -/
def hexDecodeChars : List Char → Option (List Nat)
  | [] => some []
  | [_] => none
  | c1 :: c2 :: rest =>
    match hexDigitVal c1, hexDigitVal c2, hexDecodeChars rest with
    | some h, some l, some bs => some ((16 * h + l) :: bs)
    | _, _, _ => none

def hexDecode (s : String) : Option (List Nat) :=
  hexDecodeChars s.data

def hexValAux (acc : Option Nat) (c : Char) : Option Nat :=
  match acc, hexDigitVal c with
  | some a, some d => some (16 * a + d)
  | _, _ => none

/-- `strconv.ParseUint(s, 16, 32)`: nonempty all-hex string whose value
fits in 32 bits. -/
def parseHex32 (s : String) : Option Nat :=
  if s.data.isEmpty then none
  else
    match s.data.foldl hexValAux (some 0) with
    | none => none
    | some v => if v < 4294967296 then some v else none

/-! ## compareTcbComponents (platform_ops.go lines 843-873) -/

def compareTcbComponents (pckComponents : List Nat) (pckpcesvn : Nat)
    (tcbComponents : List Nat) (tcbpcesvn : Nat) : Nat :=
  if pckComponents.length ≠ MaxTcbLevels ∨ tcbComponents.length ≠ MaxTcbLevels then
    Error
  else
    let leftLower := decide (pckpcesvn < tcbpcesvn) ||
      (List.range MaxTcbLevels).any fun i => decide (pckComponents.getD i 0 < tcbComponents.getD i 0)
    let rightLower := decide (tcbpcesvn < pckpcesvn) ||
      (List.range MaxTcbLevels).any fun i => decide (tcbComponents.getD i 0 < pckComponents.getD i 0)
    if leftLower && rightLower then Undefined
    else if leftLower then Lower
    else EqualOrGreater

/-! ## TCB level structures and getTcbCompList (platform_ops.go lines 59-94, 875-896) -/

structure TcbLevels where
  sgxTcbComp01Svn : Nat
  sgxTcbComp02Svn : Nat
  sgxTcbComp03Svn : Nat
  sgxTcbComp04Svn : Nat
  sgxTcbComp05Svn : Nat
  sgxTcbComp06Svn : Nat
  sgxTcbComp07Svn : Nat
  sgxTcbComp08Svn : Nat
  sgxTcbComp09Svn : Nat
  sgxTcbComp10Svn : Nat
  sgxTcbComp11Svn : Nat
  sgxTcbComp12Svn : Nat
  sgxTcbComp13Svn : Nat
  sgxTcbComp14Svn : Nat
  sgxTcbComp15Svn : Nat
  sgxTcbComp16Svn : Nat
  pceSvn : Nat
  deriving Repr, DecidableEq

structure TcbLevelsType where
  tcb : TcbLevels
  tcbDate : String
  tcbStatus : String
  deriving Repr, DecidableEq

def getTcbCompList (tcbLevelList : TcbLevels) : List Nat :=
  [tcbLevelList.sgxTcbComp01Svn, tcbLevelList.sgxTcbComp02Svn,
   tcbLevelList.sgxTcbComp03Svn, tcbLevelList.sgxTcbComp04Svn,
   tcbLevelList.sgxTcbComp05Svn, tcbLevelList.sgxTcbComp06Svn,
   tcbLevelList.sgxTcbComp07Svn, tcbLevelList.sgxTcbComp08Svn,
   tcbLevelList.sgxTcbComp09Svn, tcbLevelList.sgxTcbComp10Svn,
   tcbLevelList.sgxTcbComp11Svn, tcbLevelList.sgxTcbComp12Svn,
   tcbLevelList.sgxTcbComp13Svn, tcbLevelList.sgxTcbComp14Svn,
   tcbLevelList.sgxTcbComp15Svn, tcbLevelList.sgxTcbComp16Svn]

/-! ## getTcbStatus core (platform_ops.go lines 952-992): the loop over
`tcbInfo.TcbInfo.TcbLevels` with `break` on the first `EqualOrGreater`
comparison, the Go zero value `""` when no level matches, and the final
verdict mapping. -/

def getTcbStatusSearch (pckComponents : List Nat) (pckPceSvn : Nat) :
    List TcbLevelsType → String
  | [] => ""
  | l :: rest =>
    if compareTcbComponents pckComponents pckPceSvn (getTcbCompList l.tcb) l.tcb.pceSvn
        = EqualOrGreater then
      l.tcbStatus
    else
      getTcbStatusSearch pckComponents pckPceSvn rest

/-- The handler body of `getTcbStatus` after the repository lookups: `tcbm`
is the hex-decoded 18-byte TCBM of the selected PCK certificate, of which
the first 16 bytes are the CPU-SVN components and the last two the
little-endian PCE-SVN (`binary.LittleEndian.Uint16(tcbm[16:])`). -/
def getTcbStatusCore (tcbm : List Nat) (levels : List TcbLevelsType) : String × String :=
  let pckComponents := tcbm.take 16
  let pckPceSvn := tcbm.getD 16 0 + 256 * tcbm.getD 17 0
  let status := getTcbStatusSearch pckComponents pckPceSvn levels
  if status = "UpToDate" ∨ status = "ConfigurationNeeded" then
    ("true", "TCB Status is UpToDate")
  else
    ("false", "TCB Status is not UpToDate")

/-! ## Input validation (resource/validation.go) -/

def isHexDigitChar (c : Char) : Bool :=
  ('0' ≤ c && c ≤ '9') || ('a' ≤ c && c ≤ 'f') || ('A' ≤ c && c ≤ 'F')

/-- The anchored pattern `^[0-9a-fA-F]{n}$` as a decidable match. -/
def matchesHexLen (n : Nat) (s : String) : Bool :=
  s.data.length == n && s.data.all isHexDigitChar

/-- `regExMap` of resource/validation.go: eight keys; note `ca` maps to
`^(processor)$` and `type` to `^(certs)$` in the source. -/
def regExMap (key : String) : Option (String → Bool) :=
  if key = EncPPID_Key then some (matchesHexLen 768)
  else if key = CpuSvn_Key then some (matchesHexLen 32)
  else if key = PceSvn_Key then some (matchesHexLen 4)
  else if key = PceId_Key then some (matchesHexLen 4)
  else if key = Ca_Key then some (fun s => s == "processor")
  else if key = Type_Key then some (fun s => s == "certs")
  else if key = Fmspc_Key then some (matchesHexLen 12)
  else if key = QeId_Key then some (matchesHexLen 32)
  else none

/-- `ValidateInputString` of resource/validation.go.  The Go body is
`regEx := regExMap[key]; if len(key) <= 0 || !regEx.MatchString(inString)
{ return false }; return true`: an empty key short-circuits to `false`
before the map result is dereferenced, while a non-empty key absent from
the map leaves `regEx` nil and `regEx.MatchString` panics — embedded as
`none`. -/
def ValidateInputString (key inString : String) : Option Bool :=
  if key.length ≤ 0 then some false
  else
    match regExMap key with
    | none => none
    | some regEx => if !regEx inString then some false else some true

/-- Modelled from the spec: the v3 `validateInputString` called by
`pushPlatformInfo` (resource/platform_ops.go lines 593-597) is not among
the sources; §4.7 gives the same anchored hex-width patterns per field,
with `encrypted_ppid` "optional if manifest supplied" — an absent
(empty) `encrypted_ppid` passes, and `ca` admits `processor` and
`platform`. -/
def validateInputStringV3 (key inString : String) : Bool :=
  if key = EncPPID_Key && inString = "" then true
  else if key = EncPPID_Key then matchesHexLen 768 inString
  else if key = CpuSvn_Key then matchesHexLen 32 inString
  else if key = PceSvn_Key then matchesHexLen 4 inString
  else if key = PceId_Key then matchesHexLen 4 inString
  else if key = QeId_Key then matchesHexLen 32 inString
  else if key = Fmspc_Key then matchesHexLen 12 inString
  else if key = Ca_Key then inString == "processor" || inString == "platform"
  else if key = Type_Key then inString == "certs" || inString == "tcbs"
  else false

/-! ## Upstream responses (resource/platform_ops.go fetch functions).
A Go `*http.Response` is embedded as status code, header list, body and
`ContentLength`. -/

structure HttpResponse where
  statusCode : Nat
  headers : List (String × String)
  body : String
  contentLength : Int
  deriving Repr, DecidableEq

/-- `resp.Header.Get`: first value for the key, `""` when absent. -/
def headerGet (headers : List (String × String)) (key : String) : String :=
  match headers.find? (fun p => p.1 == key) with
  | some p => p.2
  | none => ""

structure FmspcTcbInfo where
  fmspc : String
  tcbInfoIssuerChain : String
  tcbInfo : String
  deriving Repr, DecidableEq

/-- `fetchFmspcTcbInfo` (platform_ops.go lines 346-382) applied to the
response of `GET /tcb?fmspc=`: non-200 status or zero content length
fail; the `Sgx-Tcb-Info-Issuer-Chain` header is read with `Header.Get`
and stored without any presence check. -/
def fetchFmspcTcbInfo (fmspc : String) (resp : HttpResponse) : Except String FmspcTcbInfo :=
  if resp.statusCode ≠ 200 then
    Except.error "get tcb info api call failed with pcs"
  else if resp.contentLength = 0 then
    Except.error "no content found in getTCBInfo Http Response"
  else
    Except.ok ⟨fmspc, headerGet resp.headers "Sgx-Tcb-Info-Issuer-Chain", resp.body⟩

structure PckCrl where
  ca : String
  pckCrlCertChain : String
  pckCrl : String
  deriving Repr, DecidableEq

/-- `fetchPckCrlInfo` (platform_ops.go lines 307-343); `b64` stands for
`base64.StdEncoding.EncodeToString` applied to the body bytes.  The
`Sgx-Pck-Crl-Issuer-Chain` header is stored without any presence
check. -/
def fetchPckCrlInfo (b64 : String → String) (ca : String) (resp : HttpResponse) :
    Except String PckCrl :=
  if resp.statusCode ≠ 200 then
    Except.error "get revocation list api call failed with pcs"
  else if resp.contentLength = 0 then
    Except.error "no content found in getPCkCrl Http Response"
  else
    Except.ok ⟨ca, headerGet resp.headers "Sgx-Pck-Crl-Issuer-Chain", b64 resp.body⟩

structure QEIdentity where
  qeIssuerChain : String
  qeInfo : String
  deriving Repr, DecidableEq

/-- `fetchQeIdentityInfo` (platform_ops.go lines 385-420).  The
`Sgx-Enclave-Identity-Issuer-Chain` header is stored without any
presence check. -/
def fetchQeIdentityInfo (resp : HttpResponse) : Except String QEIdentity :=
  if resp.statusCode ≠ 200 then
    Except.error "get qe identity api call failed with pcs"
  else if resp.contentLength = 0 then
    Except.error "no content found in getQeIdentity Http Response"
  else
    Except.ok ⟨headerGet resp.headers "Sgx-Enclave-Identity-Issuer-Chain", resp.body⟩

/-- Response handling of `fetchPckCertInfo` (platform_ops.go lines
224-241) up to the body read: status and content-length checks, then the
three headers, each read with `Header.Get` and no presence check. -/
def fetchPckCertResponseCheck (resp : HttpResponse) :
    Except String (String × String × String) :=
  if resp.statusCode ≠ 200 then
    Except.error "get pckcerts api call failed with pcs"
  else if resp.contentLength = 0 then
    Except.error "no content found in getPCkCerts Http Response"
  else
    Except.ok (headerGet resp.headers "Sgx-Pck-Certificate-Issuer-Chain",
      headerGet resp.headers "Sgx-Fmspc",
      headerGet resp.headers "Sgx-Pck-Certificate-Ca-Type")

/-! ## PCK certificate selection (platform_ops.go lines 126-189, 257-301) -/

structure Platform where
  encppid : String
  cpuSvn : String
  pceSvn : String
  pceID : String
  qeID : String
  manifest : String
  fmspc : String
  deriving Repr, DecidableEq

structure PckCert where
  qeID : String
  pceID : String
  fmspc : String
  certIndex : Nat
  pckCerts : List String
  tcbms : List String
  deriving Repr, DecidableEq

structure PckCertsInfo where
  tcb : TcbLevels
  tcbm : String
  cert : String
  deriving Repr, DecidableEq

/-- The `certError` table of `getBestPckCert`. -/
def certErrorList : List String :=
  ["PCK Cert Select Lib selected best suited PCK cert",
   "Invalid Arguments provided to PCK Cert Select Lib",
   "Invalid PCK Certificate",
   "PCK certificate CPUSVN doesn't match TCB Components",
   "Invalid PCK Certificate Version",
   "PCK Cert Lib returned Unexpected Error",
   "PCKs PCEID doesn't match other PCKs",
   "PCKs PPID doesn't match other PCKs",
   "PCKs FMSPC doesn't match other PCKs",
   "Invalid TCB Info provided as input to PCK Cert Select Lib",
   "TCB Info PceID does not match input PceID Value",
   "TCBInfo TCB Type is not supported",
   "Raw TCB is lower than all input PCKs"]

/-- Signature of the external `pck_cert_select` C library: CPU-SVN bytes,
PCE-SVN, PCE-ID, TCB-info JSON and candidate certificates in, (return
code, chosen index) out.  The library is outside this repository; it is
kept abstract and constrained only where a claim needs its §4.3
contract. -/
def SelectorFun : Type :=
  List Nat → Nat → Nat → String → List String → Nat × Nat

/-- Modelled from the spec: the §4.3 contract of the external
`pck_cert_select` library — a zero return code means the output is an
index into the candidate list. -/
def SelectorContract (selector : SelectorFun) : Prop :=
  ∀ cpusvn pcesvn pceid tcb certs,
    (selector cpusvn pcesvn pceid tcb certs).1 = 0 →
    (selector cpusvn pcesvn pceid tcb certs).2 < certs.length

/-- `getBestPckCert` (platform_ops.go lines 126-189).  Hex decoding or
parse failures return the Go error strings.  The C call takes
`&cpusvn.bytes[0]` and `&certs[0]`: when either slice is empty Go panics
with an index-out-of-range runtime error, embedded as `none`.  The parsed
PCE-SVN and PCE-ID are narrowed to `C.ushort`, the returned index to
`uint8`.  A return code outside the `certError` table would also panic
(`none`); codes 1-12 yield the table's error, 0 yields the index. -/
def getBestPckCert (selector : SelectorFun) (platformInfo : Platform)
    (pckCerts : List String) (tcb : String) : Option (Except String Nat) :=
  match hexDecode platformInfo.cpuSvn with
  | none => some (Except.error "could not decode cpusvn string")
  | some cpusvnBytes =>
    match parseHex32 platformInfo.pceSvn with
    | none => some (Except.error "could not parse pcesvn string")
    | some pceSvn =>
      match parseHex32 platformInfo.pceID with
      | none => some (Except.error "could not parse pceid string")
      | some pceID =>
        if cpusvnBytes.isEmpty || pckCerts.isEmpty then none
        else
          let r := selector cpusvnBytes (pceSvn % 65536) (pceID % 65536) tcb pckCerts
          if r.1 = 0 then some (Except.ok (r.2 % 256))
          else if r.1 ≤ 12 then some (Except.error (certErrorList.getD r.1 ""))
          else none

/-- The `"Not available"` filter of `fetchPckCertInfo` (platform_ops.go
lines 257-283): entries whose `cert` field is `"Not available"` are
dropped; kept certificates are URL-unescaped (`unescape` stands for
`url.QueryUnescape`, whose error is discarded) and their `tcbm` strings
kept in parallel. -/
def filterPckCerts (unescape : String → String) (pckCerts : List PckCertsInfo) :
    List String × List String :=
  let filtered := pckCerts.filter fun c => c.cert ≠ "Not available"
  (filtered.map fun c => unescape c.cert, filtered.map fun c => c.tcbm)

/-- `fetchPckCertInfo` (platform_ops.go lines 249-301) from the decoded
`/pckcerts` JSON array onward: filter `"Not available"` entries, build
the parallel certificate and TCBM lists, and select the best certificate
index; `fmspc` is the `Sgx-Fmspc` response header and `tcbInfo` the
TCB-info JSON fetched for it.  `none` is the Go panic propagated from
`getBestPckCert`. -/
def fetchPckCertInfoCore (unescape : String → String) (selector : SelectorFun)
    (platformInfo : Platform) (pckCerts : List PckCertsInfo)
    (fmspc : String) (tcbInfo : String) : Option (Except String PckCert) :=
  let lists := filterPckCerts unescape pckCerts
  match getBestPckCert selector platformInfo lists.1 tcbInfo with
  | none => none
  | some (Except.error e) => some (Except.error e)
  | some (Except.ok idx) =>
    some (Except.ok ⟨platformInfo.qeID, platformInfo.pceID, fmspc, idx, lists.1, lists.2⟩)

/-! ## Repository state and handler effects.  The abstract repository of
§4.2 is embedded as in-memory rows; `Effects` counts upstream fetches and
repository writes performed by a handler run. -/

structure SCSDatabase where
  platforms : List Platform
  pckCerts : List PckCert
  pckCrls : List PckCrl
  fmspcTcbs : List FmspcTcbInfo
  qeIdentity : Option QEIdentity
  deriving Repr, DecidableEq

structure Effects where
  fetches : Nat
  writes : Nat
  deriving Repr, DecidableEq

def Effects.add (a b : Effects) : Effects :=
  ⟨a.fetches + b.fetches, a.writes + b.writes⟩

structure Response where
  status : String
  message : String
  deriving Repr, DecidableEq

structure HandlerResult where
  httpStatus : Nat
  response : Response
  db : SCSDatabase
  effects : Effects
  deriving Repr, DecidableEq

/-- Modelled from the spec: the v3 lazy-cache helpers
(`getLazyCachePckCert`, `getLazyCachePckCrl`, `getLazyCacheFmspcTcbInfo`,
`getLazyCacheQEIdentityInfo`) called from platform_ops.go are not among
the sources; per §4.5 each fetches its collateral upstream and persists
it.  They are kept abstract: each returns its result (for the PCK-cert
helper, the CA type header value and the platform with `Fmspc` filled
in), the updated repository state, and the effect counts. -/
structure LazyOps where
  pckCert : SCSDatabase → Platform → Except String (String × Platform) × SCSDatabase × Effects
  pckCrl : SCSDatabase → String → Except String Unit × SCSDatabase × Effects
  fmspcTcb : SCSDatabase → String → Except String Unit × SCSDatabase × Effects
  qeIdentity : SCSDatabase → Except String Unit × SCSDatabase × Effects

/-- The fetch-and-cache chain of `pushPlatformInfo` (platform_ops.go
lines 620-674) for a platform that is not yet cached: PCK certificates
(always), then PCK CRL, FMSPC TCB info and QE identity, each only when
its row is absent; any failure maps to a 500 `resourceError` whose
message is the error text. -/
def pushPlatformInfoFetch (ops : LazyOps) (db : SCSDatabase) (platform : Platform) :
    HandlerResult :=
  match ops.pckCert db platform with
  | (Except.error e, db1, eff1) => ⟨500, ⟨"", e⟩, db1, eff1⟩
  | (Except.ok (ca, platform1), db1, eff1) =>
    let step2 :=
      if (db1.pckCrls.find? fun c => c.ca == ca).isSome then (Except.ok (), db1, (⟨0, 0⟩ : Effects))
      else ops.pckCrl db1 ca
    match step2 with
    | (Except.error e, db2, eff2) => ⟨500, ⟨"", e⟩, db2, eff1.add eff2⟩
    | (Except.ok _, db2, eff2) =>
      let step3 :=
        if (db2.fmspcTcbs.find? fun t => t.fmspc == platform1.fmspc).isSome then
          (Except.ok (), db2, (⟨0, 0⟩ : Effects))
        else ops.fmspcTcb db2 platform1.fmspc
      match step3 with
      | (Except.error e, db3, eff3) => ⟨500, ⟨"", e⟩, db3, (eff1.add eff2).add eff3⟩
      | (Except.ok _, db3, eff3) =>
        let step4 :=
          if db3.qeIdentity.isSome then (Except.ok (), db3, (⟨0, 0⟩ : Effects))
          else ops.qeIdentity db3
        match step4 with
        | (Except.error e, db4, eff4) =>
          ⟨500, ⟨"", e⟩, db4, ((eff1.add eff2).add eff3).add eff4⟩
        | (Except.ok _, db4, eff4) =>
          ⟨201, ⟨"Created", "platform data pushed to scs"⟩, db4,
            ((eff1.add eff2).add eff3).add eff4⟩

/-- `pushPlatformInfo` (platform_ops.go lines 572-675) after
authorization and JSON decoding: validate the five identifier fields,
answer 200 and stop when a Platform row for the QE-ID already exists,
otherwise run the fetch-and-cache chain in `CacheInsert` mode. -/
def pushPlatformInfo (ops : LazyOps) (db : SCSDatabase) (info : Platform) :
    HandlerResult :=
  if !validateInputStringV3 EncPPID_Key info.encppid ||
     !validateInputStringV3 CpuSvn_Key info.cpuSvn ||
     !validateInputStringV3 PceSvn_Key info.pceSvn ||
     !validateInputStringV3 PceId_Key info.pceID ||
     !validateInputStringV3 QeId_Key info.qeID then
    ⟨400, ⟨"", "invalid query param data"⟩, db, ⟨0, 0⟩⟩
  else
    match db.platforms.find? fun p => p.qeID == info.qeID with
    | some _ => ⟨200, ⟨"Success", "platform info already cached"⟩, db, ⟨0, 0⟩⟩
    | none =>
      pushPlatformInfoFetch ops db
        ⟨info.encppid, info.cpuSvn, info.pceSvn, info.pceID, info.qeID, info.manifest, ""⟩

/-- The per-row walk of `refreshPckCerts` (platform_ops.go lines
683-693): refetch each platform's PCK certificates (`fetchPck` stands
for `fetchPckCertInfo`, one upstream fetch) and update the PckCert row in
`CacheRefresh` mode; the first failure aborts the walk. -/
def refreshPckCertsLoop (fetchPck : Platform → Except String PckCert) :
    List Platform → SCSDatabase → Effects → Except String Unit × SCSDatabase × Effects
  | [], db, eff => (Except.ok (), db, eff)
  | p :: rest, db, eff =>
    match fetchPck p with
    | Except.error e => (Except.error ("pck cert refresh failed: " ++ e), db, eff.add ⟨1, 0⟩)
    | Except.ok rec =>
      refreshPckCertsLoop fetchPck rest
        { db with pckCerts := db.pckCerts.map fun r => if r.qeID == rec.qeID then rec else r }
        (eff.add ⟨1, 1⟩)

/-- `refreshPckCerts` (platform_ops.go lines 677-696): an empty Platform
table fails before any upstream call. -/
def refreshPckCerts (fetchPck : Platform → Except String PckCert) (db : SCSDatabase) :
    Except String Unit × SCSDatabase × Effects :=
  if db.platforms.length = 0 then
    (Except.error "no platform value records are found in db, cannot perform refresh",
     db, ⟨0, 0⟩)
  else
    refreshPckCertsLoop fetchPck db.platforms db ⟨0, 0⟩

/-- The walk of `refreshAllPckCrl` (platform_ops.go lines 704-709). -/
def refreshAllPckCrlLoop (ops : LazyOps) :
    List PckCrl → SCSDatabase → Effects → Except String Unit × SCSDatabase × Effects
  | [], db, eff => (Except.ok (), db, eff)
  | c :: rest, db, eff =>
    match ops.pckCrl db c.ca with
    | (Except.error e, db1, eff1) =>
      (Except.error ("refresh of pckcrl failed: " ++ e), db1, eff.add eff1)
    | (Except.ok _, db1, eff1) => refreshAllPckCrlLoop ops rest db1 (eff.add eff1)

/-- `refreshAllPckCrl` (platform_ops.go lines 698-712). -/
def refreshAllPckCrl (ops : LazyOps) (db : SCSDatabase) :
    Except String Unit × SCSDatabase × Effects :=
  if db.pckCrls.length = 0 then
    (Except.error "no pck crl record found in db, cannot perform refresh operation",
     db, ⟨0, 0⟩)
  else
    refreshAllPckCrlLoop ops db.pckCrls db ⟨0, 0⟩

/-- The walk of `refreshAllTcbInfo` (platform_ops.go lines 721-726). -/
def refreshAllTcbInfoLoop (ops : LazyOps) :
    List FmspcTcbInfo → SCSDatabase → Effects → Except String Unit × SCSDatabase × Effects
  | [], db, eff => (Except.ok (), db, eff)
  | t :: rest, db, eff =>
    match ops.fmspcTcb db t.fmspc with
    | (Except.error e, db1, eff1) =>
      (Except.error ("Error in Refresh Tcb info: " ++ e), db1, eff.add eff1)
    | (Except.ok _, db1, eff1) => refreshAllTcbInfoLoop ops rest db1 (eff.add eff1)

/-- `refreshAllTcbInfo` (platform_ops.go lines 714-729). -/
def refreshAllTcbInfo (ops : LazyOps) (db : SCSDatabase) :
    Except String Unit × SCSDatabase × Effects :=
  if db.fmspcTcbs.length = 0 then
    (Except.error "no tcbinfo record found in db, cannot perform refresh operation",
     db, ⟨0, 0⟩)
  else
    refreshAllTcbInfoLoop ops db.fmspcTcbs db ⟨0, 0⟩

/-- `refreshAllQE` (platform_ops.go lines 731-743). -/
def refreshAllQE (ops : LazyOps) (db : SCSDatabase) :
    Except String Unit × SCSDatabase × Effects :=
  match db.qeIdentity with
  | none =>
    (Except.error "no qe identity record found in db, cannot perform refresh operation",
     db, ⟨0, 0⟩)
  | some _ =>
    match ops.qeIdentity db with
    | (Except.error e, db1, eff1) =>
      (Except.error ("Error in Refresh QEIdentity info: " ++ e), db1, eff1)
    | (Except.ok _, db1, eff1) => (Except.ok (), db1, eff1)

/-- `refreshNonPCKCollaterals` (platform_ops.go lines 745-764): CRLs,
then TCB infos, then the QE identity; the first failure stops. -/
def refreshNonPCKCollaterals (ops : LazyOps) (db : SCSDatabase) :
    Except String Unit × SCSDatabase × Effects :=
  match refreshAllPckCrl ops db with
  | (Except.error e, db1, eff1) => (Except.error e, db1, eff1)
  | (Except.ok _, db1, eff1) =>
    match refreshAllTcbInfo ops db1 with
    | (Except.error e, db2, eff2) => (Except.error e, db2, eff1.add eff2)
    | (Except.ok _, db2, eff2) =>
      match refreshAllQE ops db2 with
      | (Except.error e, db3, eff3) => (Except.error e, db3, (eff1.add eff2).add eff3)
      | (Except.ok _, db3, eff3) => (Except.ok (), db3, (eff1.add eff2).add eff3)

/-- `refreshPlatformInfo` (platform_ops.go lines 785-841) after
authorization: refresh the PCK certificates, then the non-PCK
collaterals; either failure answers 404 with status `Failure` and
message `could not find platform info in database`. -/
def refreshPlatformInfo (fetchPck : Platform → Except String PckCert) (ops : LazyOps)
    (db : SCSDatabase) : HandlerResult :=
  match refreshPckCerts fetchPck db with
  | (Except.error _, db1, eff1) =>
    ⟨404, ⟨"Failure", "could not find platform info in database"⟩, db1, eff1⟩
  | (Except.ok _, db1, eff1) =>
    match refreshNonPCKCollaterals ops db1 with
    | (Except.error _, db2, eff2) =>
      ⟨404, ⟨"Failure", "could not find platform info in database"⟩, db2, eff1.add eff2⟩
    | (Except.ok _, db2, eff2) =>
      ⟨200, ⟨"Success", "sgx collaterals refreshed successfully"⟩, db2, eff1.add eff2⟩

/-! ## Shared helper definitions for theorems and witnesses -/

def regExMapKeys : List String :=
  [EncPPID_Key, CpuSvn_Key, PceSvn_Key, PceId_Key, Ca_Key, Type_Key, Fmspc_Key, QeId_Key]

lemma string_length_pos_of_ne (s : String) (h : s ≠ "") : ¬ s.length ≤ 0 := by
  intro hk
  apply h
  cases s with
  | mk data =>
    have hd : data = [] := List.length_eq_zero.mp (Nat.le_zero.mp hk)
    subst hd
    rfl

lemma regExMap_isSome_of_mem (key : String) (h : key ∈ regExMapKeys) :
    (regExMap key).isSome = true := by
  simp only [regExMapKeys, List.mem_cons, List.not_mem_nil, or_false] at h
  rcases h with h | h | h | h | h | h | h | h <;> subst h <;> rfl

lemma regExMap_eq_none_of_not_mem (key : String) (h : key ∉ regExMapKeys) :
    regExMap key = none := by
  simp only [regExMapKeys, List.mem_cons, List.not_mem_nil, or_false, not_or] at h
  obtain ⟨h1, h2, h3, h4, h5, h6, h7, h8⟩ := h
  unfold regExMap
  rw [if_neg h1, if_neg h2, if_neg h3, if_neg h4, if_neg h5, if_neg h6, if_neg h7, if_neg h8]

/-! ## C7: validation of the `ca` field -/

/-- C7 (counterexample): the claim states that the string `"platform"` is
accepted by the `ca` validation; the source regex is `^(processor)$`, so
`ValidateInputString` rejects `"platform"`. -/
theorem validateCa_rejects_platform :
    ValidateInputString Ca_Key "platform" = some false := by
  rfl

/-- C7 (amended): validation of the `ca` field accepts `s` exactly when
`s` matches `^(processor)$`; `"platform"` and every other string are
rejected. -/
theorem validateCa_accepts_iff_processor (s : String) :
    ValidateInputString Ca_Key s = some true ↔ s = "processor" := by
  have h : ValidateInputString Ca_Key s
      = if !(s == "processor") then some false else some true := rfl
  rw [h]
  by_cases hs : s = "processor"
  · subst hs; simp
  · simp [hs]

/-! ## C10: `ValidateInputString` is total only on the known keys -/

/-- C10: for a non-empty key outside the eight-entry regex map the nil
regular expression is dereferenced and the function panics (`none`)
instead of returning `false`; every known key gets a boolean answer. -/
theorem validateInputString_panics_on_unknown_key (key s : String) :
    (key ≠ "" → key ∉ regExMapKeys → ValidateInputString key s = none) ∧
    (key ∈ regExMapKeys → (ValidateInputString key s).isSome = true) := by
  constructor
  · intro hne hnot
    unfold ValidateInputString
    rw [if_neg (string_length_pos_of_ne key hne), regExMap_eq_none_of_not_mem key hnot]
  · intro hmem
    have hsome := regExMap_isSome_of_mem key hmem
    obtain ⟨f, hf⟩ := Option.isSome_iff_exists.mp hsome
    have hne : key ≠ "" := by
      intro hk
      subst hk
      rw [regExMap_eq_none_of_not_mem "" (by decide)] at hf
      exact Option.noConfusion hf
    unfold ValidateInputString
    rw [if_neg (string_length_pos_of_ne key hne), hf]
    cases hfs : f s <;> simp [hfs]

/-- C10 (witness): the unknown key `"qeid"` panics; the known key
`"qe_id"` returns a boolean. -/
theorem validateInputString_panics_on_unknown_key_witness :
    ValidateInputString "qeid" "00" = none ∧
    (ValidateInputString "qe_id" "00").isSome = true :=
  ⟨(validateInputString_panics_on_unknown_key "qeid" "00").1 (by decide) (by decide),
   (validateInputString_panics_on_unknown_key "qe_id" "00").2 (by decide)⟩

/-! ## C6: missing issuer-chain headers -/

/-- C6 (counterexample): a 200 `/tcb` response with a one-byte body and
no `Sgx-Tcb-Info-Issuer-Chain` header does not fail with an
`UpstreamError`; `fetchFmspcTcbInfo` returns a collateral record whose
issuer chain is the empty string. -/
theorem fetchFmspcTcbInfo_missing_header_succeeds :
    fetchFmspcTcbInfo "00906ea10000" ⟨200, [], "{}", 2⟩
      = Except.ok ⟨"00906ea10000", "", "{}"⟩ := by
  rfl

/-- C6 (amended): on a 200 response with non-zero content length every
fetch succeeds regardless of the issuer-chain headers: each header is
read with `Header.Get` (empty string when absent) and stored without a
presence check; only a non-200 status or zero content length fail. -/
theorem fetch_succeeds_without_issuer_chain_headers (fmspc ca : String)
    (b64 : String → String) (resp : HttpResponse)
    (h200 : resp.statusCode = 200) (hcl : resp.contentLength ≠ 0) :
    fetchFmspcTcbInfo fmspc resp
      = Except.ok ⟨fmspc, headerGet resp.headers "Sgx-Tcb-Info-Issuer-Chain", resp.body⟩ ∧
    fetchPckCrlInfo b64 ca resp
      = Except.ok ⟨ca, headerGet resp.headers "Sgx-Pck-Crl-Issuer-Chain", b64 resp.body⟩ ∧
    fetchQeIdentityInfo resp
      = Except.ok ⟨headerGet resp.headers "Sgx-Enclave-Identity-Issuer-Chain", resp.body⟩ ∧
    fetchPckCertResponseCheck resp
      = Except.ok (headerGet resp.headers "Sgx-Pck-Certificate-Issuer-Chain",
          headerGet resp.headers "Sgx-Fmspc",
          headerGet resp.headers "Sgx-Pck-Certificate-Ca-Type") := by
  refine ⟨?_, ?_, ?_, ?_⟩ <;>
    simp [fetchFmspcTcbInfo, fetchPckCrlInfo, fetchQeIdentityInfo,
      fetchPckCertResponseCheck, h200, hcl]

/-- C6 (amended, witness): the amended statement at a concrete 200
response carrying an unrelated header. -/
theorem fetch_succeeds_without_issuer_chain_headers_witness :
    fetchFmspcTcbInfo "00906ea10000" ⟨200, [("X-Other", "v")], "{}", 2⟩
      = Except.ok ⟨"00906ea10000",
          headerGet [("X-Other", "v")] "Sgx-Tcb-Info-Issuer-Chain", "{}"⟩ ∧
    fetchPckCrlInfo id "processor" ⟨200, [("X-Other", "v")], "{}", 2⟩
      = Except.ok ⟨"processor",
          headerGet [("X-Other", "v")] "Sgx-Pck-Crl-Issuer-Chain", id "{}"⟩ ∧
    fetchQeIdentityInfo ⟨200, [("X-Other", "v")], "{}", 2⟩
      = Except.ok ⟨headerGet [("X-Other", "v")] "Sgx-Enclave-Identity-Issuer-Chain", "{}"⟩ ∧
    fetchPckCertResponseCheck ⟨200, [("X-Other", "v")], "{}", 2⟩
      = Except.ok (headerGet [("X-Other", "v")] "Sgx-Pck-Certificate-Issuer-Chain",
          headerGet [("X-Other", "v")] "Sgx-Fmspc",
          headerGet [("X-Other", "v")] "Sgx-Pck-Certificate-Ca-Type") :=
  fetch_succeeds_without_issuer_chain_headers "00906ea10000" "processor" id
    ⟨200, [("X-Other", "v")], "{}", 2⟩ rfl (by decide)

/-! ## C9: refresh on an empty Platform table -/

/-- C9: with no Platform rows, `refreshPckCerts` fails with its not-found
error before any upstream fetch, and the `/refreshes` handler answers
404 with status `Failure` and message `could not find platform info in
database`, leaving the repository unchanged and performing no fetch and
no write. -/
theorem refresh_empty_platform_table (fetchPck : Platform → Except String PckCert)
    (ops : LazyOps) (db : SCSDatabase) (h : db.platforms = []) :
    (refreshPckCerts fetchPck db).1
      = Except.error "no platform value records are found in db, cannot perform refresh" ∧
    refreshPlatformInfo fetchPck ops db
      = ⟨404, ⟨"Failure", "could not find platform info in database"⟩, db, ⟨0, 0⟩⟩ := by
  have hempty : db.platforms.length = 0 := by rw [h]; rfl
  constructor
  · unfold refreshPckCerts
    rw [if_pos hempty]
  · unfold refreshPlatformInfo refreshPckCerts
    rw [if_pos hempty]

/-- A vacuous instantiation of the abstract v3 lazy-cache helpers, used
only to instantiate handler theorems at concrete inputs. -/
def trivialOps : LazyOps :=
  ⟨fun db p => (Except.ok ("processor", p), db, ⟨1, 1⟩),
   fun db _ => (Except.ok (), db, ⟨1, 1⟩),
   fun db _ => (Except.ok (), db, ⟨1, 1⟩),
   fun db => (Except.ok (), db, ⟨1, 1⟩)⟩

/-- C9 (witness): the empty repository. -/
theorem refresh_empty_platform_table_witness :
    (refreshPckCerts (fun _ => Except.error "e") ⟨[], [], [], [], none⟩).1
      = Except.error "no platform value records are found in db, cannot perform refresh" ∧
    refreshPlatformInfo (fun _ => Except.error "e") trivialOps ⟨[], [], [], [], none⟩
      = ⟨404, ⟨"Failure", "could not find platform info in database"⟩,
          ⟨[], [], [], [], none⟩, ⟨0, 0⟩⟩ :=
  refresh_empty_platform_table (fun _ => Except.error "e") trivialOps
    ⟨[], [], [], [], none⟩ rfl

/-! ## C5: duplicate push -/

/-- C5: a push whose five identifier fields validate and whose QE-ID
already has a Platform row answers 200 with status `Success` and message
`platform info already cached`, leaves the repository unchanged, and
performs no upstream fetch and no write. -/
theorem push_already_cached (ops : LazyOps) (db : SCSDatabase) (info : Platform)
    (hv1 : validateInputStringV3 EncPPID_Key info.encppid = true)
    (hv2 : validateInputStringV3 CpuSvn_Key info.cpuSvn = true)
    (hv3 : validateInputStringV3 PceSvn_Key info.pceSvn = true)
    (hv4 : validateInputStringV3 PceId_Key info.pceID = true)
    (hv5 : validateInputStringV3 QeId_Key info.qeID = true)
    (p : Platform) (hex : db.platforms.find? (fun q => q.qeID == info.qeID) = some p) :
    pushPlatformInfo ops db info
      = ⟨200, ⟨"Success", "platform info already cached"⟩, db, ⟨0, 0⟩⟩ := by
  unfold pushPlatformInfo
  rw [hv1, hv2, hv3, hv4, hv5]
  simp only [Bool.not_true, Bool.or_false, Bool.false_or, Bool.or_self, if_neg]
  rw [hex]
  rfl

/-- C5 (witness): a duplicate push for an all-zero platform already in
the repository. -/
theorem push_already_cached_witness :
    pushPlatformInfo trivialOps
      ⟨[⟨"", "00000000000000000000000000000000", "0100", "0000",
          "00000000000000000000000000000000", "m", "fm"⟩], [], [], [], none⟩
      ⟨"", "00000000000000000000000000000000", "0100", "0000",
        "00000000000000000000000000000000", "m2", ""⟩
      = ⟨200, ⟨"Success", "platform info already cached"⟩,
          ⟨[⟨"", "00000000000000000000000000000000", "0100", "0000",
              "00000000000000000000000000000000", "m", "fm"⟩], [], [], [], none⟩,
          ⟨0, 0⟩⟩ :=
  push_already_cached trivialOps _ _ (by decide) (by decide) (by decide) (by decide)
    (by decide)
    ⟨"", "00000000000000000000000000000000", "0100", "0000",
      "00000000000000000000000000000000", "m", "fm"⟩ (by decide)

/-! ## C3: a `/pckcerts` response whose entries are all `"Not available"` -/

/-- C3: every entry of the decoded `/pckcerts` array with `cert` equal to
`"Not available"` is filtered out before selection, and with all entries
filtered out `getBestPckCert` is reached with an empty certificate list,
where taking `&certs[0]` panics (`none`) — the request dies with an
index-out-of-range runtime error instead of the spec's `SelectionError`,
and nothing is cached. -/
theorem fetch_all_not_available_panics (unescape : String → String)
    (selector : SelectorFun) (fmspc tcbInfo : String) (tcb : TcbLevels) (tcbm : String) :
    (filterPckCerts unescape [⟨tcb, tcbm, "Not available"⟩]).1 = [] ∧
    fetchPckCertInfoCore unescape selector
      ⟨"", "00000000000000000000000000000000", "0100", "0000",
        "00000000000000000000000000000000", "m", ""⟩
      [⟨tcb, tcbm, "Not available"⟩] fmspc tcbInfo = none := by
  constructor
  · rfl
  · rfl

/-! ## C2: the three-way TCB component comparison -/

lemma anyRangeLt_iff (a b : List Nat) :
    ((List.range MaxTcbLevels).any fun i => decide (a.getD i 0 < b.getD i 0)) = true ↔
    ∃ i < 16, a.getD i 0 < b.getD i 0 := by
  simp [List.any_eq_true, List.mem_range, MaxTcbLevels]

/-- C2: with a vector of either length other than 16 the comparison is
`Error`; otherwise, with `left` the "some PCK byte below the TCB byte, or
`pckPceSvn < tcbPceSvn`" flag and `right` its mirror image, both flags
give `Undefined`, only `left` gives `Lower`, and only `right` or neither
gives `EqualOrGreater`. -/
theorem compareTcbComponents_spec (pck tcb : List Nat) (ppce tpce : Nat)
    (hpb : ∀ x ∈ pck, x < 256) (htb : ∀ x ∈ tcb, x < 256)
    (hps : ppce < 65536) (hts : tpce < 65536) :
    (¬(pck.length = 16 ∧ tcb.length = 16) →
      compareTcbComponents pck ppce tcb tpce = Error) ∧
    (pck.length = 16 → tcb.length = 16 →
      (((ppce < tpce ∨ ∃ i < 16, pck.getD i 0 < tcb.getD i 0) ∧
          (tpce < ppce ∨ ∃ i < 16, tcb.getD i 0 < pck.getD i 0)) →
        compareTcbComponents pck ppce tcb tpce = Undefined) ∧
      (((ppce < tpce ∨ ∃ i < 16, pck.getD i 0 < tcb.getD i 0) ∧
          ¬(tpce < ppce ∨ ∃ i < 16, tcb.getD i 0 < pck.getD i 0)) →
        compareTcbComponents pck ppce tcb tpce = Lower) ∧
      (¬(ppce < tpce ∨ ∃ i < 16, pck.getD i 0 < tcb.getD i 0) →
        compareTcbComponents pck ppce tcb tpce = EqualOrGreater)) := by
  constructor
  · intro h
    have hcond : pck.length ≠ MaxTcbLevels ∨ tcb.length ≠ MaxTcbLevels := by
      unfold MaxTcbLevels
      tauto
    unfold compareTcbComponents
    rw [if_pos hcond]
  · intro h1 h2
    have hcond : ¬(pck.length ≠ MaxTcbLevels ∨ tcb.length ≠ MaxTcbLevels) := by
      simp [h1, h2, MaxTcbLevels]
    have hLiff : (decide (ppce < tpce) ||
        (List.range MaxTcbLevels).any fun i => decide (pck.getD i 0 < tcb.getD i 0)) = true ↔
        (ppce < tpce ∨ ∃ i < 16, pck.getD i 0 < tcb.getD i 0) := by
      rw [Bool.or_eq_true, anyRangeLt_iff pck tcb, decide_eq_true_eq]
    have hRiff : (decide (tpce < ppce) ||
        (List.range MaxTcbLevels).any fun i => decide (tcb.getD i 0 < pck.getD i 0)) = true ↔
        (tpce < ppce ∨ ∃ i < 16, tcb.getD i 0 < pck.getD i 0) := by
      rw [Bool.or_eq_true, anyRangeLt_iff tcb pck, decide_eq_true_eq]
    refine ⟨?_, ?_, ?_⟩
    · rintro ⟨hL, hR⟩
      unfold compareTcbComponents
      rw [if_neg hcond]
      simp only [hLiff.mpr hL, hRiff.mpr hR]
      rfl
    · rintro ⟨hL, hR⟩
      have hRb : (decide (tpce < ppce) ||
          (List.range MaxTcbLevels).any fun i => decide (tcb.getD i 0 < pck.getD i 0)) = false := by
        rw [← Bool.not_eq_true]
        exact fun hc => hR (hRiff.mp hc)
      unfold compareTcbComponents
      rw [if_neg hcond]
      simp only [hLiff.mpr hL, hRb]
      rfl
    · intro hL
      have hLb : (decide (ppce < tpce) ||
          (List.range MaxTcbLevels).any fun i => decide (pck.getD i 0 < tcb.getD i 0)) = false := by
        rw [← Bool.not_eq_true]
        exact fun hc => hL (hLiff.mp hc)
      unfold compareTcbComponents
      rw [if_neg hcond]
      simp only [hLb]
      rfl

/-- C2 (witness): two all-zero 16-byte vectors with PCE-SVNs 1 and 0 —
only the right flag is set, so the comparison is `EqualOrGreater`. -/
theorem compareTcbComponents_spec_witness :
    (¬((List.replicate 16 0).length = 16 ∧ (List.replicate 16 0).length = 16) →
      compareTcbComponents (List.replicate 16 0) 1 (List.replicate 16 0) 0 = Error) ∧
    ((List.replicate 16 0).length = 16 → (List.replicate 16 0).length = 16 →
      (((1 < 0 ∨ ∃ i < 16, (List.replicate 16 0).getD i 0 < (List.replicate 16 0).getD i 0) ∧
          (0 < 1 ∨ ∃ i < 16, (List.replicate 16 0).getD i 0 < (List.replicate 16 0).getD i 0)) →
        compareTcbComponents (List.replicate 16 0) 1 (List.replicate 16 0) 0 = Undefined) ∧
      (((1 < 0 ∨ ∃ i < 16, (List.replicate 16 0).getD i 0 < (List.replicate 16 0).getD i 0) ∧
          ¬(0 < 1 ∨ ∃ i < 16, (List.replicate 16 0).getD i 0 < (List.replicate 16 0).getD i 0)) →
        compareTcbComponents (List.replicate 16 0) 1 (List.replicate 16 0) 0 = Lower) ∧
      (¬(1 < 0 ∨ ∃ i < 16, (List.replicate 16 0).getD i 0 < (List.replicate 16 0).getD i 0) →
        compareTcbComponents (List.replicate 16 0) 1 (List.replicate 16 0) 0 = EqualOrGreater)) :=
  compareTcbComponents_spec (List.replicate 16 0) (List.replicate 16 0) 1 0
    (by decide) (by decide) (by decide) (by decide)

/-! ## C1: the TCB-status walk and client verdict -/

lemma getTcbStatusSearch_eq_find (pc : List Nat) (ps : Nat) (levels : List TcbLevelsType) :
    getTcbStatusSearch pc ps levels =
      ((levels.find? fun l =>
          compareTcbComponents pc ps (getTcbCompList l.tcb) l.tcb.pceSvn == EqualOrGreater).map
        TcbLevelsType.tcbStatus).getD "" := by
  induction levels with
  | nil => rfl
  | cons l rest ih =>
    by_cases h : compareTcbComponents pc ps (getTcbCompList l.tcb) l.tcb.pceSvn = EqualOrGreater
    · simp [getTcbStatusSearch, List.find?_cons, h]
    · simp [getTcbStatusSearch, List.find?_cons, h, ih]

lemma getTcbStatusCore_eq (tcbm : List Nat) (levels : List TcbLevelsType) :
    getTcbStatusCore tcbm levels =
      if getTcbStatusSearch (tcbm.take 16) (tcbm.getD 16 0 + 256 * tcbm.getD 17 0) levels
            = "UpToDate" ∨
         getTcbStatusSearch (tcbm.take 16) (tcbm.getD 16 0 + 256 * tcbm.getD 17 0) levels
            = "ConfigurationNeeded"
      then ("true", "TCB Status is UpToDate")
      else ("false", "TCB Status is not UpToDate") := rfl

/-- C1: for an 18-byte decoded TCBM (first 16 bytes CPU-SVN components,
last two the little-endian PCE-SVN), the status walk returns the
`tcbStatus` of the first TCB level, in array order, that compares
`EqualOrGreater`, and the client verdict is
`("true", "TCB Status is UpToDate")` exactly when that status is
`UpToDate` or `ConfigurationNeeded`; with no matching level the verdict
is `("false", "TCB Status is not UpToDate")`. -/
theorem getTcbStatus_first_match (tcbm : List Nat) (h18 : tcbm.length = 18)
    (hb : ∀ x ∈ tcbm, x < 256) (levels : List TcbLevelsType) :
    (∀ l, (levels.find? fun l =>
        compareTcbComponents (tcbm.take 16) (tcbm.getD 16 0 + 256 * tcbm.getD 17 0)
          (getTcbCompList l.tcb) l.tcb.pceSvn == EqualOrGreater) = some l →
      getTcbStatusSearch (tcbm.take 16) (tcbm.getD 16 0 + 256 * tcbm.getD 17 0) levels
          = l.tcbStatus ∧
      (getTcbStatusCore tcbm levels = ("true", "TCB Status is UpToDate") ↔
        (l.tcbStatus = "UpToDate" ∨ l.tcbStatus = "ConfigurationNeeded")) ∧
      (¬(l.tcbStatus = "UpToDate" ∨ l.tcbStatus = "ConfigurationNeeded") →
        getTcbStatusCore tcbm levels = ("false", "TCB Status is not UpToDate"))) ∧
    ((levels.find? fun l =>
        compareTcbComponents (tcbm.take 16) (tcbm.getD 16 0 + 256 * tcbm.getD 17 0)
          (getTcbCompList l.tcb) l.tcb.pceSvn == EqualOrGreater) = none →
      getTcbStatusCore tcbm levels = ("false", "TCB Status is not UpToDate")) := by
  have hsearch := getTcbStatusSearch_eq_find (tcbm.take 16)
    (tcbm.getD 16 0 + 256 * tcbm.getD 17 0) levels
  constructor
  · intro l hfind
    have hst : getTcbStatusSearch (tcbm.take 16) (tcbm.getD 16 0 + 256 * tcbm.getD 17 0)
        levels = l.tcbStatus := by
      rw [hsearch, hfind]
      rfl
    refine ⟨hst, ?_, ?_⟩
    · rw [getTcbStatusCore_eq, hst]
      by_cases hup : l.tcbStatus = "UpToDate" ∨ l.tcbStatus = "ConfigurationNeeded"
      · rw [if_pos hup]
        simp [hup]
      · rw [if_neg hup]
        simp only [hup, iff_false]
        intro hcontra
        exact absurd (Prod.ext_iff.mp hcontra).1 (by decide)
    · intro hup
      rw [getTcbStatusCore_eq, hst, if_neg hup]
  · intro hfind
    have hst : getTcbStatusSearch (tcbm.take 16) (tcbm.getD 16 0 + 256 * tcbm.getD 17 0)
        levels = "" := by
      rw [hsearch, hfind]
      rfl
    rw [getTcbStatusCore_eq, hst, if_neg (by decide)]

/-- C1 (witness): an 18-byte all-zero TCBM against a single all-zero TCB
level whose status is `UpToDate`: the level matches and the verdict is
`true`. -/
theorem getTcbStatus_first_match_witness :
    getTcbStatusSearch ((List.replicate 18 0).take 16)
        ((List.replicate 18 0).getD 16 0 + 256 * (List.replicate 18 0).getD 17 0)
        [⟨⟨0, 0, 0, 0, 0, 0, 0, 0, 0, 0, 0, 0, 0, 0, 0, 0, 0⟩, "d", "UpToDate"⟩]
      = "UpToDate" ∧
    getTcbStatusCore (List.replicate 18 0)
        [⟨⟨0, 0, 0, 0, 0, 0, 0, 0, 0, 0, 0, 0, 0, 0, 0, 0, 0⟩, "d", "UpToDate"⟩]
      = ("true", "TCB Status is UpToDate") := by
  have h := (getTcbStatus_first_match (List.replicate 18 0) (by decide) (by decide)
    [⟨⟨0, 0, 0, 0, 0, 0, 0, 0, 0, 0, 0, 0, 0, 0, 0, 0, 0⟩, "d", "UpToDate"⟩]).1
    ⟨⟨0, 0, 0, 0, 0, 0, 0, 0, 0, 0, 0, 0, 0, 0, 0, 0, 0⟩, "d", "UpToDate"⟩ (by decide)
  exact ⟨h.1, h.2.1.mpr (Or.inl rfl)⟩

/-! ## C4: the PckCert record invariant on successful pushes -/

lemma mod256_lt {i n : Nat} (h : i < n) : i % 256 < n := by
  rcases Nat.lt_or_ge i 256 with h' | h'
  · rwa [Nat.mod_eq_of_lt h']
  · exact lt_trans (Nat.mod_lt i (by norm_num)) (lt_of_le_of_lt h' h)

lemma getBestPckCert_ok (selector : SelectorFun) (hsel : SelectorContract selector)
    (p : Platform) (certs : List String) (tcb : String) (idx : Nat)
    (h : getBestPckCert selector p certs tcb = some (Except.ok idx)) :
    certs ≠ [] ∧ idx < certs.length := by
  unfold getBestPckCert at h
  cases hhd : hexDecode p.cpuSvn with
  | none => rw [hhd] at h; simp at h
  | some bs =>
    rw [hhd] at h
    cases hp1 : parseHex32 p.pceSvn with
    | none => rw [hp1] at h; simp at h
    | some sv =>
      rw [hp1] at h
      cases hp2 : parseHex32 p.pceID with
      | none => rw [hp2] at h; simp at h
      | some pid =>
        rw [hp2] at h
        dsimp only at h
        by_cases hemp : (bs.isEmpty || certs.isEmpty) = true
        · rw [if_pos hemp] at h
          exact Option.noConfusion h
        · rw [if_neg hemp] at h
          have hcerts : certs ≠ [] := by
            intro hc
            subst hc
            simp at hemp
          refine ⟨hcerts, ?_⟩
          by_cases hr : (selector bs (sv % 65536) (pid % 65536) tcb certs).1 = 0
          · rw [if_pos hr] at h
            simp only [Option.some.injEq, Except.ok.injEq] at h
            rw [← h]
            exact mod256_lt (hsel bs (sv % 65536) (pid % 65536) tcb certs hr)
          · rw [if_neg hr] at h
            by_cases hr12 : (selector bs (sv % 65536) (pid % 65536) tcb certs).1 ≤ 12
            · rw [if_pos hr12] at h
              simp at h
            · rw [if_neg hr12] at h
              exact Option.noConfusion h

/-- C4: whenever the `fetchPckCertInfo` pipeline succeeds — so whenever a
push writes a PckCert record — the record has equally long, non-empty
`PckCerts` and `Tcbms` lists and its `CertIndex` lies strictly below
their length (the external selector honouring its §4.3 contract). -/
theorem pckcert_record_invariant (unescape : String → String) (selector : SelectorFun)
    (hsel : SelectorContract selector) (platformInfo : Platform)
    (pckCerts : List PckCertsInfo) (fmspc tcbInfo : String) (rec : PckCert)
    (hok : fetchPckCertInfoCore unescape selector platformInfo pckCerts fmspc tcbInfo
      = some (Except.ok rec)) :
    rec.pckCerts.length = rec.tcbms.length ∧ 0 < rec.pckCerts.length ∧
    rec.certIndex < rec.pckCerts.length := by
  simp only [fetchPckCertInfoCore] at hok
  cases hgb : getBestPckCert selector platformInfo (filterPckCerts unescape pckCerts).1
      tcbInfo with
  | none =>
    rw [hgb] at hok
    exact Option.noConfusion hok
  | some r =>
    rw [hgb] at hok
    cases r with
    | error e => simp at hok
    | ok idx =>
      simp only [Option.some.injEq, Except.ok.injEq] at hok
      obtain ⟨hne, hlt⟩ := getBestPckCert_ok selector hsel platformInfo
        (filterPckCerts unescape pckCerts).1 tcbInfo idx hgb
      rw [← hok]
      refine ⟨?_, ?_, ?_⟩
      · simp [filterPckCerts]
      · exact List.length_pos.mpr hne
      · exact hlt

/-- A selector instance satisfying the §4.3 contract, used only to
instantiate theorems at concrete inputs: it reports `InvalidArg` on an
empty candidate list and picks index 0 otherwise. -/
def pickFirstSelector : SelectorFun :=
  fun _ _ _ _ certs => if certs.isEmpty then (1, 0) else (0, 0)

lemma pickFirstSelector_contract : SelectorContract pickFirstSelector := by
  intro cpusvn pcesvn pceid tcb certs h
  unfold pickFirstSelector at h ⊢
  cases certs with
  | nil => simp at h
  | cons c rest => simp

/-- C4 (witness): a single available certificate; the resulting record
has one certificate, one TCBM, and cert-index 0. -/
theorem pckcert_record_invariant_witness :
    (PckCert.mk "00000000000000000000000000000000" "0000" "fm" 0 ["certA"]
        ["aabbccddeeff00112233445566778899aabb"]).pckCerts.length
      = (PckCert.mk "00000000000000000000000000000000" "0000" "fm" 0 ["certA"]
        ["aabbccddeeff00112233445566778899aabb"]).tcbms.length ∧
    0 < (PckCert.mk "00000000000000000000000000000000" "0000" "fm" 0 ["certA"]
        ["aabbccddeeff00112233445566778899aabb"]).pckCerts.length ∧
    (PckCert.mk "00000000000000000000000000000000" "0000" "fm" 0 ["certA"]
        ["aabbccddeeff00112233445566778899aabb"]).certIndex
      < (PckCert.mk "00000000000000000000000000000000" "0000" "fm" 0 ["certA"]
        ["aabbccddeeff00112233445566778899aabb"]).pckCerts.length :=
  pckcert_record_invariant id pickFirstSelector pickFirstSelector_contract
    ⟨"", "00000000000000000000000000000000", "0100", "0000",
      "00000000000000000000000000000000", "m", ""⟩
    [⟨⟨0, 0, 0, 0, 0, 0, 0, 0, 0, 0, 0, 0, 0, 0, 0, 0, 0⟩,
      "aabbccddeeff00112233445566778899aabb", "certA"⟩]
    "fm" "tcbjson"
    (PckCert.mk "00000000000000000000000000000000" "0000" "fm" 0 ["certA"]
      ["aabbccddeeff00112233445566778899aabb"])
    rfl

/-! ## C8: `encrypted_ppid` is optional when a manifest is supplied -/

lemma pushPlatformInfoFetch_not_400 (ops : LazyOps) (db : SCSDatabase) (p : Platform) :
    (pushPlatformInfoFetch ops db p).httpStatus ≠ 400 := by
  unfold pushPlatformInfoFetch
  repeat' split
  all_goals try dsimp only
  all_goals repeat' split
  all_goals simp

/-- C8: a push body carrying a manifest and valid `cpu_svn`, `pce_svn`,
`pce_id`, `qe_id` but an absent (empty) `encrypted_ppid` is not rejected
by input validation — the handler never answers 400 for it — while a
present-but-malformed `encrypted_ppid` yields the
`400 invalid query param data` response with no fetch and no write. -/
theorem push_manifest_optional_encppid (ops : LazyOps) (db : SCSDatabase)
    (info info2 : Platform)
    (hman : info.manifest ≠ "") (henc : info.encppid = "")
    (h2 : matchesHexLen 32 info.cpuSvn = true) (h3 : matchesHexLen 4 info.pceSvn = true)
    (h4 : matchesHexLen 4 info.pceID = true) (h5 : matchesHexLen 32 info.qeID = true)
    (henc2 : info2.encppid ≠ "") (hbad : matchesHexLen 768 info2.encppid = false) :
    (pushPlatformInfo ops db info).httpStatus ≠ 400 ∧
    pushPlatformInfo ops db info2
      = ⟨400, ⟨"", "invalid query param data"⟩, db, ⟨0, 0⟩⟩ := by
  constructor
  · have hv1 : validateInputStringV3 EncPPID_Key info.encppid = true := by
      rw [henc]
      rfl
    have hv2 : validateInputStringV3 CpuSvn_Key info.cpuSvn = true := by
      simp [validateInputStringV3, EncPPID_Key, CpuSvn_Key, h2]
    have hv3 : validateInputStringV3 PceSvn_Key info.pceSvn = true := by
      simp [validateInputStringV3, EncPPID_Key, CpuSvn_Key, PceSvn_Key, h3]
    have hv4 : validateInputStringV3 PceId_Key info.pceID = true := by
      simp [validateInputStringV3, EncPPID_Key, CpuSvn_Key, PceSvn_Key, PceId_Key, h4]
    have hv5 : validateInputStringV3 QeId_Key info.qeID = true := by
      simp [validateInputStringV3, EncPPID_Key, CpuSvn_Key, PceSvn_Key, PceId_Key,
        QeId_Key, h5]
    unfold pushPlatformInfo
    rw [hv1, hv2, hv3, hv4, hv5]
    simp only [Bool.not_true, Bool.or_self, Bool.or_false, Bool.false_or, if_neg,
      Bool.false_eq_true, if_false]
    cases hf : db.platforms.find? fun p => p.qeID == info.qeID with
    | some q => simp
    | none => exact pushPlatformInfoFetch_not_400 ops db _
  · have hv : validateInputStringV3 EncPPID_Key info2.encppid = false := by
      simp [validateInputStringV3, EncPPID_Key, henc2, hbad]
    unfold pushPlatformInfo
    rw [hv]
    rfl

/-- C8 (witness): an all-zero platform with manifest `"m"` and empty
`encrypted_ppid` passes validation; the same platform with the two-char
non-hex `encrypted_ppid` `"zz"` is rejected with 400. -/
theorem push_manifest_optional_encppid_witness :
    (pushPlatformInfo trivialOps ⟨[], [], [], [], none⟩
        ⟨"", "00000000000000000000000000000000", "0100", "0000",
          "00000000000000000000000000000000", "m", ""⟩).httpStatus ≠ 400 ∧
    pushPlatformInfo trivialOps ⟨[], [], [], [], none⟩
        ⟨"zz", "00000000000000000000000000000000", "0100", "0000",
          "00000000000000000000000000000000", "m", ""⟩
      = ⟨400, ⟨"", "invalid query param data"⟩, ⟨[], [], [], [], none⟩, ⟨0, 0⟩⟩ :=
  push_manifest_optional_encppid trivialOps ⟨[], [], [], [], none⟩
    ⟨"", "00000000000000000000000000000000", "0100", "0000",
      "00000000000000000000000000000000", "m", ""⟩
    ⟨"zz", "00000000000000000000000000000000", "0100", "0000",
      "00000000000000000000000000000000", "m", ""⟩
    (by decide) rfl (by decide) (by decide) (by decide) (by decide) (by decide) (by decide)

end SCS
